import Mathlib

/-!
Verification of the Zendesk custom-object manager / migration toolkit
against its specification.

The development shallowly embeds the JavaScript of
`Custom Object Manager App/assets/main.js` (pagination, lookup search,
record-name fetching, the delete confirmation gate, and the
relationship-schema discovery cache) as pure Lean functions over
explicit oracles for the remote server, and models the parts of the
migration engine that the repository only documents (dependency
ordering, rollback ordering, rate-limited request execution, the plan
CSV round trip) directly from the specification text.
-/

namespace Zendesk

/-! ### Pagination (main.js, fetchAllPages, lines 702-728)

A single page response, as the JS loop observes it: the `dataKey`
entry may be absent (`data = none`) or present with a list of items;
`meta.has_more`, `links.next` and `next_page` drive the choice of the
next endpoint. A request may also fail, which the JS `catch` block
observes. -/

structure PageBody (α : Type) where
  data : Option (List α)
  hasMore : Bool
  linksNext : Option String
  nextPage : Option String
  deriving Repr, DecidableEq

/-- Mirror of the endpoint-advancing conditional in fetchAllPages:
`response.meta && response.meta.has_more && response.links && response.links.next`
selects the cursor link, otherwise `response.next_page` is used, otherwise
the loop stops. -/
def nextEndpoint {α : Type} (b : PageBody α) : Option String :=
  if b.hasMore && b.linksNext.isSome then b.linksNext else b.nextPage

/-- Shallow embedding of fetchAllPages (main.js lines 702-728). The
input list is the sequence of responses the server returns along the
endpoint chain, each either a page body or a request failure
(`Except.error`). The JS accumulates `response[dataKey]` when present,
follows the next endpoint while one is advertised, and on a request
failure its `catch` block sets the current endpoint to null — ending
the loop and returning the records accumulated so far. -/
def fetchAllPages {α : Type} : List (Except Unit (PageBody α)) → List α
  | [] => []
  | Except.error _ :: _ => []
  | Except.ok b :: rest =>
      b.data.getD [] ++
        (match nextEndpoint b with
          | some _ => fetchAllPages rest
          | none => [])

/-- Page body that advertises a next cursor page. -/
def midPage {α : Type} (d : Option (List α)) : PageBody α :=
  { data := d, hasMore := true, linksNext := some "next", nextPage := none }

/-- Page body that advertises no further page. -/
def lastPage {α : Type} (d : Option (List α)) : PageBody α :=
  { data := d, hasMore := false, linksNext := none, nextPage := none }

/-- Response chain in which every page succeeds, all but the last
advertise a next page, and the last does not. -/
def successChain {α : Type} (ps : List (Option (List α))) (last : Option (List α)) :
    List (Except Unit (PageBody α)) :=
  ps.map (fun d => Except.ok (midPage d)) ++ [Except.ok (lastPage last)]

theorem nextEndpoint_midPage {α : Type} (d : Option (List α)) :
    nextEndpoint (midPage d) = some "next" := rfl

theorem nextEndpoint_lastPage {α : Type} (d : Option (List α)) :
    nextEndpoint (lastPage d) = none := rfl

theorem fetchAllPages_successChain {α : Type} (ps : List (Option (List α)))
    (last : Option (List α)) :
    fetchAllPages (successChain ps last) =
      (ps.map (fun d => d.getD [])).flatten ++ last.getD [] := by
  induction ps with
  | nil => simp [successChain, fetchAllPages, lastPage, nextEndpoint]
  | cons p rest ih =>
      have h1 : fetchAllPages (successChain (p :: rest) last)
          = p.getD [] ++ fetchAllPages (successChain rest last) := rfl
      rw [h1, ih]
      simp [List.append_assoc]

/-- C2. For every sequence of server pages, fetchAllPages follows
the next-page links until the server reports no further pages and
returns the concatenation of all pages' items in arrival order; a page
whose data key is absent or empty is not an error and does not stop
the loop when a next page is advertised. -/
theorem c2_fetchAllPages_concatenates_all_pages :
    (∀ (ps : List (Option (List Nat))) (last : Option (List Nat)),
        fetchAllPages (successChain ps last) =
          (ps.map (fun d => d.getD [])).flatten ++ last.getD []) ∧
    (∀ rest : List (Except Unit (PageBody Nat)),
        fetchAllPages (Except.ok (midPage none) :: rest) = fetchAllPages rest) ∧
    (∀ rest : List (Except Unit (PageBody Nat)),
        fetchAllPages (Except.ok (midPage (some [])) :: rest) = fetchAllPages rest) := by
  refine ⟨fetchAllPages_successChain, ?_, ?_⟩ <;>
    intro rest <;> rfl

/-- C1 counterexample. A two-page read whose second page request fails:
the code returns the first page's records — a partial, silently
truncated result, equal to what a complete one-page read would have
produced — rather than failing the whole read. -/
theorem c1_counterexample_partial_result_returned :
    fetchAllPages [Except.ok (midPage (some [1, 2])), Except.error ()] = [1, 2] ∧
    fetchAllPages [Except.ok (lastPage (some [1, 2]))] = ([1, 2] : List Nat) := by
  exact ⟨rfl, rfl⟩

/-- C1 amended. When a page request fails, fetchAllPages catches the
error, stops following further pages, and returns exactly the records
accumulated from the pages already fetched; the caller receives a
truncated list with no error signal. -/
theorem c1_amended_failure_returns_accumulated_records
    (ps : List (Option (List Nat))) (rest : List (Except Unit (PageBody Nat))) :
    fetchAllPages (ps.map (fun d => Except.ok (midPage d)) ++ Except.error () :: rest) =
      (ps.map (fun d => d.getD [])).flatten := by
  induction ps with
  | nil => simp [fetchAllPages]
  | cons p tl ih =>
      have h1 : fetchAllPages ((p :: tl).map (fun d => Except.ok (midPage d))
            ++ Except.error () :: rest)
          = p.getD [] ++ fetchAllPages (tl.map (fun d => Except.ok (midPage d))
            ++ Except.error () :: rest) := rfl
      rw [h1, ih]
      simp

/-! ### Lookup search and single-record name fetch
(main.js, searchLookupData lines 730-772 and fetchSingleRecordName
lines 774-804)

A raw record as returned by the various search / show endpoints. Every
JS property that the two functions inspect is modelled as an `Option`
(absent = `none`); `cofActive` models `record.custom_object_fields`
(`none` = property absent, `some a` = present with its own optional
`active` property). -/

structure LookupRecord where
  id : Option Nat
  externalId : Option Nat
  name : Option String
  title : Option String
  subject : Option String
  suspended : Option Bool
  active : Option Bool
  cofActive : Option (Option Bool)
  deriving Repr, DecidableEq

/-- JS `a || b` for number-valued properties: `undefined` and `0` are
falsy. -/
def jsOrNat (a b : Option Nat) : Option Nat :=
  match a with
  | some n => if n = 0 then b else some n
  | none => b

/-- JS `a || b` for string-valued properties: `undefined` and the empty
string are falsy. -/
def jsOrStr (a : Option String) (b : String) : String :=
  match a with
  | some s => if s = "" then b else s
  | none => b

/-- JS template `Record ${record.id}` (prints `undefined` for an absent
id). -/
def recordIdLabel (i : Option Nat) : String :=
  match i with
  | some n => "Record " ++ toString n
  | none => "Record undefined"

/-- Label field chosen by both functions: `subject` for tickets,
`name` otherwise. -/
def labelFieldValue (labelField : String) (r : LookupRecord) : Option String :=
  if labelField = "subject" then r.subject else r.name

/-- Expression `record[labelField] || record.title || Record ${record.id}`
shared by both functions. -/
def displayLabel (labelField : String) (r : LookupRecord) : String :=
  jsOrStr (labelFieldValue labelField r) (jsOrStr r.title (recordIdLabel r.id))

/-- Target types the dispatch in both functions recognizes. -/
def isRecognizedTarget (targetType : String) : Bool :=
  targetType.startsWith "zen:custom_object:" || targetType = "zen:user" ||
    targetType = "zen:ticket" || targetType = "zen:organization"

/-- Label field each target type uses (`subject` only for tickets). -/
def labelFieldFor (targetType : String) : String :=
  if targetType = "zen:ticket" then "subject" else "name"

/-- Filter predicate of searchLookupData (main.js lines 757-762):
drop records with `suspended === true`, `active === false`, or a
`custom_object_fields.active === false`. -/
def keepLookupRecord (r : LookupRecord) : Bool :=
  !(r.suspended == some true) && !(r.active == some false) &&
    !(r.cofActive == some (some false))

/-- Entry shape searchLookupData returns to TomSelect. -/
structure LookupEntry where
  id : Option Nat
  label : String
  deriving Repr, DecidableEq

/-- Mapping step of searchLookupData (main.js lines 764-767). -/
def toLookupEntry (labelField : String) (r : LookupRecord) : LookupEntry :=
  { id := jsOrNat r.id r.externalId,
    label := jsOrStr (labelFieldValue labelField r) (jsOrStr r.title (recordIdLabel r.id)) }

/-- Shallow embedding of searchLookupData (main.js lines 730-772).
The network is an oracle `server`: `Except.error ()` when
`client.request` rejects, otherwise the list `response[dataKey] || []`.
Unrecognized target types return `[]` before any request; a request
error is caught and also yields `[]`. -/
def searchLookupData (targetType : String)
    (server : Except Unit (List LookupRecord)) : List LookupEntry :=
  if isRecognizedTarget targetType then
    match server with
    | Except.error _ => []
    | Except.ok rawRecords =>
        (rawRecords.filter keepLookupRecord).map (toLookupEntry (labelFieldFor targetType))
  else []

theorem searchLookupData_ok_eq (t : String) (rs : List LookupRecord)
    (h : isRecognizedTarget t = true) :
    searchLookupData t (Except.ok rs) =
      (rs.filter keepLookupRecord).map (toLookupEntry (labelFieldFor t)) := by
  simp [searchLookupData, h]

theorem searchLookupData_not_recognized (t : String)
    (srv : Except Unit (List LookupRecord)) (h : isRecognizedTarget t = false) :
    searchLookupData t srv = [] := by
  simp [searchLookupData, h]

theorem searchLookupData_error_eq (t : String) (u : Unit) :
    searchLookupData t (Except.error u) = [] := by
  cases h : isRecognizedTarget t
  · exact searchLookupData_not_recognized t _ h
  · simp [searchLookupData, h]

theorem keepLookupRecord_spec (r : LookupRecord) (hk : keepLookupRecord r = true) :
    r.suspended ≠ some true ∧ r.active ≠ some false ∧
      r.cofActive ≠ some (some false) := by
  simp only [keepLookupRecord, Bool.and_eq_true, Bool.not_eq_true',
    beq_eq_false_iff_ne, ne_eq] at hk
  tauto

/-- C9. Every entry searchLookupData returns arises from a raw record
that is not suspended, not inactive, and whose
custom_object_fields.active is not false; and on a request error the
function returns the empty list rather than throwing. -/
theorem c9_searchLookupData_filters_and_absorbs_errors
    (targetType : String) (server : Except Unit (List LookupRecord)) :
    (∀ e ∈ searchLookupData targetType server,
        ∃ r ∈ (server.toOption.getD []),
          r.suspended ≠ some true ∧ r.active ≠ some false ∧
            r.cofActive ≠ some (some false) ∧
            e = toLookupEntry (labelFieldFor targetType) r) ∧
    searchLookupData targetType (Except.error ()) = [] := by
  constructor
  · intro e he
    cases hrec : isRecognizedTarget targetType with
    | false =>
        rw [searchLookupData_not_recognized targetType server hrec] at he
        exact absurd he (List.not_mem_nil e)
    | true =>
        cases server with
        | error u =>
            rw [searchLookupData_error_eq targetType u] at he
            exact absurd he (List.not_mem_nil e)
        | ok rawRecords =>
            rw [searchLookupData_ok_eq targetType rawRecords hrec, List.mem_map] at he
            obtain ⟨r, hrmem, hre⟩ := he
            rw [List.mem_filter] at hrmem
            obtain ⟨h1, h2, h3⟩ := keepLookupRecord_spec r hrmem.2
            exact ⟨r, by simpa using hrmem.1, h1, h2, h3, hre.symm⟩
  · exact searchLookupData_error_eq targetType ()

/-- C9 witness: at target type zen:user, a server page holding one
clean record and one suspended record yields exactly the clean
record's entry, which indeed arises from an unsuspended raw record. -/
theorem c9_witness :
    ∃ r ∈ ((Except.ok [
        ({ id := some 7, externalId := none, name := some "Ann", title := none,
           subject := none, suspended := none, active := none,
           cofActive := none } : LookupRecord),
        ({ id := some 8, externalId := none, name := some "Bob", title := none,
           subject := none, suspended := some true, active := none,
           cofActive := none } : LookupRecord)] : Except Unit (List LookupRecord))).toOption.getD [],
      r.suspended ≠ some true ∧ r.active ≠ some false ∧
        r.cofActive ≠ some (some false) ∧
        ({ id := some 7, label := "Ann" } : LookupEntry) = toLookupEntry (labelFieldFor "zen:user") r := by
  refine (c9_searchLookupData_filters_and_absorbs_errors "zen:user" _).1
    { id := some 7, label := "Ann" } ?_
  decide

/-- Shallow embedding of fetchSingleRecordName (main.js lines 774-804).
The oracle: `Except.error ()` when `client.request` rejects;
`Except.ok none` when the response lacks the expected data key (the JS
then throws reading a property of `undefined`, and the `catch` returns
the fallback); `Except.ok (some r)` otherwise. Unrecognized target
types return `Record <id>` before any request. -/
def fetchSingleRecordName (targetType : String) (id : Nat)
    (server : Except Unit (Option LookupRecord)) : String :=
  if isRecognizedTarget targetType then
    match server with
    | Except.error _ => "Record " ++ toString id
    | Except.ok none => "Record " ++ toString id
    | Except.ok (some r) => displayLabel (labelFieldFor targetType) r
  else "Record " ++ toString id

theorem jsOrStr_ne_empty (a : Option String) (b : String) (hb : b ≠ "") :
    jsOrStr a b ≠ "" := by
  match a with
  | none => exact hb
  | some s =>
      simp only [jsOrStr]
      by_cases hs : s = ""
      · simp only [hs, if_true]
        exact hb
      · simp only [hs, if_false]
        exact hs

theorem append_ne_empty_left (s t : String) (hs : s ≠ "") : s ++ t ≠ "" := by
  intro h
  apply hs
  have hd : s.data ++ t.data = [] := congrArg String.data h
  have : s.data = [] := (List.append_eq_nil.mp hd).1
  cases s
  simp_all

theorem recordIdLabel_ne_empty (i : Option Nat) : recordIdLabel i ≠ "" := by
  match i with
  | some n => exact append_ne_empty_left "Record " (toString n) (by decide)
  | none => simp [recordIdLabel]

theorem displayLabel_ne_empty (labelField : String) (r : LookupRecord) :
    displayLabel labelField r ≠ "" :=
  jsOrStr_ne_empty _ _ (jsOrStr_ne_empty _ _ (recordIdLabel_ne_empty r.id))

/-- C10. fetchSingleRecordName is total at its interface: it always
returns a non-empty display string, and whenever the target type is
unrecognized or the request fails it returns the fallback
"Record <id>" instead of propagating an error. -/
theorem c10_fetchSingleRecordName_total
    (targetType : String) (id : Nat) (server : Except Unit (Option LookupRecord)) :
    fetchSingleRecordName targetType id server ≠ "" ∧
    (isRecognizedTarget targetType = false →
      fetchSingleRecordName targetType id server = "Record " ++ toString id) ∧
    fetchSingleRecordName targetType id (Except.error ()) = "Record " ++ toString id := by
  refine ⟨?_, ?_, ?_⟩
  · by_cases hrec : isRecognizedTarget targetType
    · match server with
      | Except.error _ =>
          simpa [fetchSingleRecordName, hrec] using
            append_ne_empty_left "Record " (toString id) (by decide)
      | Except.ok none =>
          simpa [fetchSingleRecordName, hrec] using
            append_ne_empty_left "Record " (toString id) (by decide)
      | Except.ok (some r) =>
          simpa [fetchSingleRecordName, hrec] using
            displayLabel_ne_empty (labelFieldFor targetType) r
    · simpa [fetchSingleRecordName, hrec] using
        append_ne_empty_left "Record " (toString id) (by decide)
  · intro hrec
    simp [fetchSingleRecordName, hrec]
  · by_cases hrec : isRecognizedTarget targetType <;>
      simp [fetchSingleRecordName, hrec]

/-- C10 witness: the unrecognized target type "zen:group" with id 7
and a failing request yields the fallback "Record 7". -/
theorem c10_witness :
    fetchSingleRecordName "zen:group" 7 (Except.error ()) = "Record " ++ toString 7 :=
  (c10_fetchSingleRecordName_total "zen:group" 7 (Except.error ())).2.1 (by decide)

/-! ### Record deletion confirmation gate (main.js, deleteRecord,
lines 324-340) -/

/-- HTTP call the delete path can issue. -/
inductive HttpCall where
  | deleteCall (coKey : String) (recordId : Nat)
  deriving Repr, DecidableEq

/-- Outcome of one deleteRecord execution: the remote record set
afterwards and the requests issued. -/
structure DeleteOutcome where
  remote : List Nat
  requests : List HttpCall
  deriving Repr, DecidableEq

/-- Shallow embedding of deleteRecord (main.js lines 324-340).
`confirmed` is the result of the `confirm(...)` dialog; the DELETE
request is issued only inside the accepted branch. `serverAccepts`
models whether the DELETE succeeds (on failure the JS catch leaves the
remote state as it was). -/
def deleteRecord (confirmed : Bool) (coKey : String) (recordId : Nat)
    (remote : List Nat) (serverAccepts : Bool) : DeleteOutcome :=
  if confirmed then
    { remote := if serverAccepts then remote.filter (fun i => i ≠ recordId) else remote,
      requests := [HttpCall.deleteCall coKey recordId] }
  else
    { remote := remote, requests := [] }

/-- C5. A destructive remote delete is never issued without operator
confirmation: when the confirmation dialog is not accepted, deleteRecord
sends no request and the remote state is unchanged. -/
theorem c5_delete_requires_confirmation (coKey : String) (recordId : Nat)
    (remote : List Nat) (serverAccepts : Bool) :
    (deleteRecord false coKey recordId remote serverAccepts).requests = [] ∧
    (deleteRecord false coKey recordId remote serverAccepts).remote = remote :=
  ⟨rfl, rfl⟩

/-! ### Relationship-schema discovery cache
(main.js: global `cachedLookupFields` line 11, reset in the
selector's load handler lines 127-136, used by
getLookupFieldsForCurrentCo lines 525-574) -/

/-- Raw field definition as the four discovery endpoints return it. -/
structure RawField where
  id : Nat
  key : String
  title : String
  fieldType : String
  relationshipTargetType : String
  deriving Repr, DecidableEq

/-- One custom object together with its fields. -/
structure CustomObjectInfo where
  key : String
  titlePluralized : String
  fields : List RawField
  deriving Repr, DecidableEq

/-- Remote account contents the discovery scan reads. -/
structure Account where
  ticketFields : List RawField
  userFields : List RawField
  orgFields : List RawField
  customObjects : List CustomObjectInfo
  deriving Repr, DecidableEq

/-- Entry getLookupFieldsForCurrentCo accumulates (custom-object
fields contribute their string key as id, the rest their numeric id
rendered as a string). -/
structure LookupFieldInfo where
  id : String
  title : String
  fieldType : String
  label : String
  deriving Repr, DecidableEq

/-- Fields of one category that are lookups pointing at the target
custom object (the filter repeated at main.js lines 533, 542, 551,
563). -/
def matchingFields (coKey : String) (fs : List RawField) : List RawField :=
  fs.filter (fun f =>
    f.fieldType = "lookup" && f.relationshipTargetType = "zen:custom_object:" ++ coKey)

/-- Discovery scan of getLookupFieldsForCurrentCo (main.js lines
527-570): ticket, user and organization fields, then every custom
object's fields; successful fetches are abstracted as the account's
lists. -/
def scanLookupFields (acct : Account) (coKey : String) : List LookupFieldInfo :=
  (matchingFields coKey acct.ticketFields).map
      (fun f => { id := toString f.id, title := f.title, fieldType := "zen:ticket",
                  label := "Tickets" }) ++
    (matchingFields coKey acct.userFields).map
      (fun f => { id := toString f.id, title := f.title, fieldType := "zen:user",
                  label := "Users" }) ++
    (matchingFields coKey acct.orgFields).map
      (fun f => { id := toString f.id, title := f.title, fieldType := "zen:organization",
                  label := "Organizations" }) ++
    (acct.customObjects.map (fun obj =>
      (matchingFields coKey obj.fields).map
        (fun f => { id := f.key, title := f.title,
                    fieldType := "zen:custom_object:" ++ obj.key,
                    label := obj.titlePluralized }))).flatten

/-- Slice of the app's global state that the cache logic touches:
`currentCoKey` and `cachedLookupFields` (main.js lines 5 and 11). -/
structure AppState where
  currentCoKey : Option String
  cachedLookupFields : Option (List LookupFieldInfo)
  deriving Repr, DecidableEq

/-- Load-button handler of the object selector (main.js lines
127-136): for a non-empty selection it stores the key and resets
`cachedLookupFields` to null, unconditionally — even when the selected
key equals the current one. -/
def selectObject (st : AppState) (key : String) : AppState :=
  if key = "" then st
  else { currentCoKey := some key, cachedLookupFields := none }

/-- Result of one getLookupFieldsForCurrentCo call: the returned list,
the state afterwards, and whether discovery API requests were issued. -/
structure LookupCallResult where
  fields : List LookupFieldInfo
  state : AppState
  scanned : Bool
  deriving Repr, DecidableEq

/-- Shallow embedding of getLookupFieldsForCurrentCo (main.js lines
525-574): return the cache when it is set, otherwise scan the account
(issuing API requests), store the result in the cache and return it. -/
def getLookupFieldsForCurrentCo (acct : Account) (st : AppState) : LookupCallResult :=
  match st.cachedLookupFields with
  | some fs => { fields := fs, state := st, scanned := false }
  | none =>
      let fs := scanLookupFields acct (st.currentCoKey.getD "null")
      { fields := fs, state := { st with cachedLookupFields := some fs }, scanned := true }

/-- Account used in the C7 counterexample: one ticket lookup field
pointing at the custom object "dog". -/
def c7Account : Account :=
  { ticketFields := [{ id := 1, key := "tf1", title := "Dog", fieldType := "lookup",
                       relationshipTargetType := "zen:custom_object:dog" }],
    userFields := [], orgFields := [], customObjects := [] }

/-- C7 counterexample. Loading the same custom object "dog" a second
time — the selected target object never changes — still resets the
cache, so the next getLookupFieldsForCurrentCo call rescans instead of
returning the cached result: the cache is not invalidated only when
the selected object changes. -/
theorem c7_counterexample_reselect_same_object_invalidates :
    (selectObject (getLookupFieldsForCurrentCo c7Account
        (selectObject { currentCoKey := none, cachedLookupFields := none } "dog")).state
        "dog").currentCoKey =
      (getLookupFieldsForCurrentCo c7Account
        (selectObject { currentCoKey := none, cachedLookupFields := none } "dog")).state.currentCoKey ∧
    (getLookupFieldsForCurrentCo c7Account
      (selectObject { currentCoKey := none, cachedLookupFields := none } "dog")).scanned = true ∧
    (getLookupFieldsForCurrentCo c7Account
      (selectObject (getLookupFieldsForCurrentCo c7Account
        (selectObject { currentCoKey := none, cachedLookupFields := none } "dog")).state
        "dog")).scanned = true := by
  refine ⟨rfl, rfl, rfl⟩

/-- C7 amended. The discovery cache is populated on first use and
reset whenever a custom object is loaded from the selector — in
particular whenever the selected object changes, but also when the
same object is re-loaded: loading any object resets the cache, a call
finding the cache empty performs the discovery scan, and every
subsequent call without an intervening load returns the cached result
without issuing further API requests. -/
theorem c7_amended_cache_reset_on_every_load (acct : Account) (st : AppState)
    (key : String) (hk : key ≠ "") :
    (selectObject st key).cachedLookupFields = none ∧
    (∀ st' : AppState, st'.cachedLookupFields = none →
      (getLookupFieldsForCurrentCo acct st').scanned = true) ∧
    (∀ st' : AppState,
      getLookupFieldsForCurrentCo acct (getLookupFieldsForCurrentCo acct st').state =
        { fields := (getLookupFieldsForCurrentCo acct st').fields,
          state := (getLookupFieldsForCurrentCo acct st').state,
          scanned := false }) := by
  refine ⟨?_, ?_, ?_⟩
  · simp [selectObject, hk]
  · intro st' hcache
    simp [getLookupFieldsForCurrentCo, hcache]
  · intro st'
    match hc : st'.cachedLookupFields with
    | some fs => simp [getLookupFieldsForCurrentCo, hc]
    | none => simp [getLookupFieldsForCurrentCo, hc]

/-- C7 witness: at the concrete account and states, loading "dog"
clears the cache and the first call after the load scans. -/
theorem c7_witness :
    (selectObject { currentCoKey := none, cachedLookupFields := none } "dog").cachedLookupFields
        = none ∧
    (getLookupFieldsForCurrentCo c7Account
      { currentCoKey := some "dog", cachedLookupFields := none }).scanned = true := by
  have h := c7_amended_cache_reset_on_every_load c7Account
    { currentCoKey := none, cachedLookupFields := none } "dog" (by decide)
  exact ⟨h.1, h.2.1 { currentCoKey := some "dog", cachedLookupFields := none } rfl⟩

/-! ### Dependency resolver / ID remapper

Modelled from the spec: migration.py is not part of src/ (the README
documents it at src/unnamed/part_000 line 85); spec section 4.4 gives
the ordering policy — all missing fields precede all missing forms,
fields keep source read order — and the payload rule: every referenced
field id is substituted through the IdentifierMap, failing with
UnresolvedDependencyError when a mapping is absent. -/

structure FieldDef where
  sourceId : Nat
  category : String
  key : String
  deriving Repr, DecidableEq

structure FormDef where
  name : String
  fieldRefs : List Nat
  deriving Repr, DecidableEq

inductive PlanEntry where
  | fieldEntry (f : FieldDef)
  | formEntry (fm : FormDef)
  deriving Repr, DecidableEq

/-- Modelled from the spec (section 4.4): the ordered creation plan —
all missing fields first, in source read order, then all missing
forms. -/
def orderPlan (missingFields : List FieldDef) (missingForms : List FormDef) :
    List PlanEntry :=
  missingFields.map PlanEntry.fieldEntry ++ missingForms.map PlanEntry.formEntry

/-- Modelled from the spec (section 4.4): substitute every referenced
field source id through the IdentifierMap, failing with
UnresolvedDependencyError (here `Except.error ()`) when a referenced
id has no mapping. -/
def resolveRefs (idMap : List (Nat × Nat)) : List Nat → Except Unit (List Nat)
  | [] => Except.ok []
  | s :: rest =>
      match idMap.lookup s with
      | none => Except.error ()
      | some t =>
          match resolveRefs idMap rest with
          | Except.error u => Except.error u
          | Except.ok ts => Except.ok (t :: ts)

structure FormPayload where
  name : String
  fieldRefs : List Nat
  deriving Repr, DecidableEq

/-- Modelled from the spec (section 4.4): a form's target-instance
creation payload, built only when every referenced field id
resolves. -/
def buildFormPayload (idMap : List (Nat × Nat)) (fm : FormDef) :
    Except Unit FormPayload :=
  match resolveRefs idMap fm.fieldRefs with
  | Except.error u => Except.error u
  | Except.ok ts => Except.ok { name := fm.name, fieldRefs := ts }

theorem resolveRefs_mem (idMap : List (Nat × Nat)) (refs ts : List Nat)
    (h : resolveRefs idMap refs = Except.ok ts) :
    ∀ t ∈ ts, ∃ s ∈ refs, idMap.lookup s = some t := by
  induction refs generalizing ts with
  | nil =>
      simp only [resolveRefs, Except.ok.injEq] at h
      subst h
      intro t ht
      exact absurd ht (List.not_mem_nil t)
  | cons s rest ih =>
      simp only [resolveRefs] at h
      cases hm : idMap.lookup s with
      | none => rw [hm] at h; cases h
      | some t0 =>
          rw [hm] at h
          cases hr : resolveRefs idMap rest with
          | error u => rw [hr] at h; cases h
          | ok ts0 =>
              rw [hr] at h
              cases h
              intro t ht
              rcases List.mem_cons.mp ht with h1 | h2
              · exact ⟨s, List.mem_cons_self s rest, h1 ▸ hm⟩
              · obtain ⟨s', hs', hl⟩ := ih ts0 hr t h2
                exact ⟨s', List.mem_cons_of_mem s hs', hl⟩

theorem orderPlan_field_index_lt (fields : List FieldDef) (forms : List FormDef)
    (i : Nat) (fd : FieldDef)
    (hi : (orderPlan fields forms).get? i = some (PlanEntry.fieldEntry fd)) :
    i < fields.length := by
  by_contra hge
  push_neg at hge
  have hge' : (fields.map PlanEntry.fieldEntry).length ≤ i := by
    simpa using hge
  rw [orderPlan, List.get?_append_right hge'] at hi
  rw [List.get?_map] at hi
  cases hf : (forms.get? (i - (fields.map PlanEntry.fieldEntry).length)) with
  | none => rw [hf] at hi; cases hi
  | some fm => rw [hf] at hi; cases hi

theorem orderPlan_form_index_ge (fields : List FieldDef) (forms : List FormDef)
    (j : Nat) (fm : FormDef)
    (hj : (orderPlan fields forms).get? j = some (PlanEntry.formEntry fm)) :
    fields.length ≤ j := by
  by_contra hlt
  push_neg at hlt
  have hlt' : j < (fields.map PlanEntry.fieldEntry).length := by
    simpa using hlt
  rw [orderPlan, List.get?_append hlt'] at hj
  rw [List.get?_map] at hj
  cases hf : (fields.get? j) with
  | none => rw [hf] at hj; cases hj
  | some fd => rw [hf] at hj; cases hj

/-- C3. In every creation plan, every field entry precedes every form
entry (regardless of field category), so every form's creation entry
appears strictly after every field entry it references; and a form
payload is built for submission only with every source-scoped field
reference resolved through the identifier map. -/
theorem c3_fields_precede_forms_and_refs_resolved :
    (∀ (fields : List FieldDef) (forms : List FormDef) (i j : Nat)
        (fd : FieldDef) (fm : FormDef),
        (orderPlan fields forms).get? i = some (PlanEntry.fieldEntry fd) →
        (orderPlan fields forms).get? j = some (PlanEntry.formEntry fm) →
        i < j) ∧
    (∀ (idMap : List (Nat × Nat)) (fm : FormDef) (p : FormPayload),
        buildFormPayload idMap fm = Except.ok p →
        ∀ t ∈ p.fieldRefs, ∃ s ∈ fm.fieldRefs, idMap.lookup s = some t) := by
  constructor
  · intro fields forms i j fd fm hi hj
    exact Nat.lt_of_lt_of_le (orderPlan_field_index_lt fields forms i fd hi)
      (orderPlan_form_index_ge fields forms j fm hj)
  · intro idMap fm p hp
    simp only [buildFormPayload] at hp
    cases hr : resolveRefs idMap fm.fieldRefs with
    | error u => rw [hr] at hp; cases hp
    | ok ts =>
        rw [hr] at hp
        cases hp
        exact resolveRefs_mem idMap fm.fieldRefs ts hr

/-- C3 witness: in the plan for one field and one form, the field
entry (index 0) precedes the form entry (index 1), and the form's
payload built from the map [(5, 501)] carries only resolved target
ids. -/
theorem c3_witness :
    (0 : Nat) < 1 ∧
    (∀ t ∈ (({ name := "Main Form", fieldRefs := [501] } : FormPayload)).fieldRefs,
      ∃ s ∈ (({ name := "Main Form", fieldRefs := [5] } : FormDef)).fieldRefs,
        ([(5, 501)] : List (Nat × Nat)).lookup s = some t) := by
  constructor
  · exact c3_fields_precede_forms_and_refs_resolved.1
      [{ sourceId := 5, category := "ticket_field", key := "priority_lvl" }]
      [{ name := "Main Form", fieldRefs := [5] }] 0 1
      { sourceId := 5, category := "ticket_field", key := "priority_lvl" }
      { name := "Main Form", fieldRefs := [5] } rfl rfl
  · exact c3_fields_precede_forms_and_refs_resolved.2 [(5, 501)]
      { name := "Main Form", fieldRefs := [5] }
      { name := "Main Form", fieldRefs := [501] } rfl

/-! ### Rate-limited request executor

Modelled from the spec: the request executor lives in the missing
Python scripts (the README documents the HTTP 429 handling at
src/unnamed/part_000 line 83); spec section 4.1 gives the contract —
on a rate-limit response read the server-advised wait (fixed default
when absent), pause, resubmit the identical request, invisibly to the
caller and without consuming the caller-facing retry budget, which
only transient failures consume. -/

inductive HttpResponse where
  | success (body : Nat)
  | rateLimited (retryAfter : Option Nat)
  | transientFailure
  | permanentFailure (statusCode : Nat)
  deriving Repr, DecidableEq

inductive ExecError where
  | transientError
  | permanentError
  deriving Repr, DecidableEq

/-- Observable outcome of an execute call: the caller-visible result
and the sequence of backoff pauses performed, in seconds. -/
structure ExecOutcome where
  result : Except ExecError Nat
  pauses : List Nat
  deriving Repr

/-- Modelled from the spec (section 4.1): default wait when the
rate-limit response carries no advised duration. -/
def defaultRetryAfter : Nat := 60

/-- Modelled from the spec (section 4.1): the executor consumes the
sequence of responses the server gives to successive submissions of
one request. A 2xx succeeds; a rate-limit response causes a pause of
the advised duration (default when absent) and a resubmission with the
retry budget untouched; a transient failure consumes one unit of retry
budget (failing with TransientError once exhausted); any other non-2xx
fails with PermanentError. -/
def execute (budget : Nat) : List HttpResponse → ExecOutcome
  | [] => { result := Except.error ExecError.transientError, pauses := [] }
  | HttpResponse.success b :: _ => { result := Except.ok b, pauses := [] }
  | HttpResponse.rateLimited d :: rest =>
      let o := execute budget rest
      { result := o.result, pauses := (d.getD defaultRetryAfter) :: o.pauses }
  | HttpResponse.transientFailure :: rest =>
      match budget with
      | 0 => { result := Except.error ExecError.transientError, pauses := [] }
      | b + 1 => execute b rest
  | HttpResponse.permanentFailure _ :: _ =>
      { result := Except.error ExecError.permanentError, pauses := [] }

/-- C6. On a rate-limit response the executor pauses for the
server-advised duration (the fixed default when absent) and resubmits
the identical request: the eventual caller-visible result is exactly
that of the retried request, and the retry budget passed on is the
unchanged incoming budget. -/
theorem c6_rate_limit_retries_invisibly_without_budget (budget : Nat)
    (d : Option Nat) (rest : List HttpResponse) :
    execute budget (HttpResponse.rateLimited d :: rest) =
      { result := (execute budget rest).result,
        pauses := (d.getD defaultRetryAfter) :: (execute budget rest).pauses } :=
  rfl

/-! ### Rollback engine deletion order

Modelled from the spec: undo_migration.py is not part of src/ (the
README documents it at src/unnamed/part_000 line 79: items are removed
in reverse, LIFO, order); spec section 4.7 — Rolling Back reads the
full log, sorts it by sequence_no descending, and deletes each entry's
object in that order. -/

structure RollbackLogEntry where
  sequenceNo : Nat
  entityKind : String
  targetId : Nat
  createdAt : String
  deriving Repr, DecidableEq

/-- Insertion step of a stable descending sort by sequence_no. -/
def insertDescBySeq (e : RollbackLogEntry) :
    List RollbackLogEntry → List RollbackLogEntry
  | [] => [e]
  | x :: xs =>
      if x.sequenceNo ≤ e.sequenceNo then e :: x :: xs
      else x :: insertDescBySeq e xs

/-- Modelled from the spec (section 4.7): sort the log by sequence_no
descending. -/
def sortDescBySeq : List RollbackLogEntry → List RollbackLogEntry
  | [] => []
  | x :: xs => insertDescBySeq x (sortDescBySeq xs)

/-- Modelled from the spec (section 4.7): the order in which the
Rollback Engine deletes the logged objects. -/
def rollbackDeletionOrder (log : List RollbackLogEntry) : List RollbackLogEntry :=
  sortDescBySeq log

theorem insertDescBySeq_of_lt (e : RollbackLogEntry) (l : List RollbackLogEntry)
    (h : ∀ x ∈ l, e.sequenceNo < x.sequenceNo) :
    insertDescBySeq e l = l ++ [e] := by
  induction l with
  | nil => rfl
  | cons x xs ih =>
      have hx : e.sequenceNo < x.sequenceNo := h x (List.mem_cons_self x xs)
      have hnot : ¬ x.sequenceNo ≤ e.sequenceNo := Nat.not_le_of_lt hx
      simp only [insertDescBySeq, if_neg hnot, List.cons_append]
      rw [ih (fun y hy => h y (List.mem_cons_of_mem x hy))]

theorem sortDescBySeq_of_ascending (l : List RollbackLogEntry)
    (h : l.Pairwise (fun a b => a.sequenceNo < b.sequenceNo)) :
    sortDescBySeq l = l.reverse := by
  induction l with
  | nil => rfl
  | cons x xs ih =>
      rw [List.pairwise_cons] at h
      have hrev : ∀ y ∈ (sortDescBySeq xs), x.sequenceNo < y.sequenceNo := by
        intro y hy
        rw [ih h.2, List.mem_reverse] at hy
        exact h.1 y hy
      calc sortDescBySeq (x :: xs)
          = insertDescBySeq x (sortDescBySeq xs) := rfl
        _ = sortDescBySeq xs ++ [x] := insertDescBySeq_of_lt x _ hrev
        _ = xs.reverse ++ [x] := by rw [ih h.2]
        _ = (x :: xs).reverse := (List.reverse_cons x xs).symm

/-- C4. For a run that created entries with sequence numbers 1..N (the
log lists them in creation order), the Rollback Engine deletes the
logged objects in strictly descending sequence order N, N-1, ..., 1 —
the reverse of List.range' 1 N = [1, ..., N]. -/
theorem c4_rollback_deletes_in_reverse_order (log : List RollbackLogEntry) (n : Nat)
    (h : log.map RollbackLogEntry.sequenceNo = List.range' 1 n) :
    (rollbackDeletionOrder log).map RollbackLogEntry.sequenceNo =
      (List.range' 1 n).reverse := by
  have hpw : (log.map RollbackLogEntry.sequenceNo).Pairwise (· < ·) := by
    rw [h]; exact List.pairwise_lt_range' 1 n
  rw [List.pairwise_map] at hpw
  rw [rollbackDeletionOrder, sortDescBySeq_of_ascending log hpw,
    List.map_reverse, h]

/-- C4 witness: a three-entry log with sequence numbers [1, 2, 3] is
deleted in the order [3, 2, 1]. -/
theorem c4_witness :
    (rollbackDeletionOrder [
      { sequenceNo := 1, entityKind := "ticket_field", targetId := 501,
        createdAt := "t1" },
      { sequenceNo := 2, entityKind := "ticket_field", targetId := 502,
        createdAt := "t2" },
      { sequenceNo := 3, entityKind := "ticket_form", targetId := 901,
        createdAt := "t3" }]).map RollbackLogEntry.sequenceNo = [3, 2, 1] := by
  have h := c4_rollback_deletes_in_reverse_order [
      { sequenceNo := 1, entityKind := "ticket_field", targetId := 501,
        createdAt := "t1" },
      { sequenceNo := 2, entityKind := "ticket_field", targetId := 502,
        createdAt := "t2" },
      { sequenceNo := 3, entityKind := "ticket_form", targetId := 901,
        createdAt := "t3" }] 3 rfl
  simpa using h

/-! ### Plan serializer (CSV round trip)

Modelled from the spec: the Plan Serializer lives in migration.py /
import_from_csv.py, which are not part of src/; spec sections 4.5 and
6 give the row format — each row is either a field row (category, key,
title, type, required, source id, target id) or an option row (value,
name, position, active) belonging to the immediately preceding field
row — and `read` must reject dangling option rows and duplicate keys
within a category. -/

structure FieldOption where
  value : String
  name : String
  position : Nat
  active : Bool
  deriving Repr, DecidableEq

/-- In-memory field definition carried by a migration plan (spec
section 3, FieldDefinition, restricted to the attributes the plan file
serializes). -/
structure PlanField where
  category : String
  key : String
  title : String
  fieldType : String
  required : Bool
  sourceId : Nat
  targetId : Option Nat
  options : List FieldOption
  deriving Repr, DecidableEq

inductive PlanRow where
  | fieldRow (category key title fieldType : String) (required : Bool)
      (sourceId : Nat) (targetId : Option Nat)
  | optionRow (value name : String) (position : Nat) (active : Bool)
  deriving Repr, DecidableEq

inductive PlanReadError where
  | danglingOption
  | duplicateKey
  deriving Repr, DecidableEq

/-- Modelled from the spec (sections 4.5 and 6): one field serializes
to its field row followed by its option rows, in order. -/
def writeField (f : PlanField) : List PlanRow :=
  PlanRow.fieldRow f.category f.key f.title f.fieldType f.required f.sourceId f.targetId
    :: f.options.map (fun o => PlanRow.optionRow o.value o.name o.position o.active)

/-- Modelled from the spec (section 4.5): `write(plan)`. -/
def writePlan : List PlanField → List PlanRow
  | [] => []
  | f :: rest => writeField f ++ writePlan rest

/-- Attach one option row to the field under construction. -/
def addOption (f : PlanField) (o : FieldOption) : PlanField :=
  { f with options := f.options ++ [o] }

/-- Parsing loop of `read(rows)`: `acc` holds the completed fields,
`cur` the field whose option rows are still arriving; an option row
with no preceding field row is a DanglingOptionError. -/
def readRowsGo (acc : List PlanField) (cur : Option PlanField) :
    List PlanRow → Except PlanReadError (List PlanField)
  | [] => Except.ok (acc ++ cur.toList)
  | PlanRow.optionRow v nm pos act :: rest =>
      match cur with
      | none => Except.error PlanReadError.danglingOption
      | some f => readRowsGo acc (some (addOption f ⟨v, nm, pos, act⟩)) rest
  | PlanRow.fieldRow c k t ty rq sid tid :: rest =>
      readRowsGo (acc ++ cur.toList)
        (some { category := c, key := k, title := t, fieldType := ty, required := rq,
                sourceId := sid, targetId := tid, options := [] }) rest

/-- Duplicate (category, key) detection over the parsed fields. -/
def dupKeys : List (String × String) → Bool
  | [] => false
  | k :: rest => rest.contains k || dupKeys rest

/-- Modelled from the spec (section 4.5): `read(rows)` — parse the
rows, rejecting dangling option rows during the parse and duplicate
keys within a category afterwards. -/
def readPlan (rows : List PlanRow) : Except PlanReadError (List PlanField) :=
  match readRowsGo [] none rows with
  | Except.error e => Except.error e
  | Except.ok fs =>
      if dupKeys (fs.map (fun f => (f.category, f.key))) then
        Except.error PlanReadError.duplicateKey
      else Except.ok fs

theorem readRowsGo_fieldRow (acc : List PlanField) (cur : Option PlanField)
    (c k t ty : String) (rq : Bool) (sid : Nat) (tid : Option Nat)
    (rest : List PlanRow) :
    readRowsGo acc cur (PlanRow.fieldRow c k t ty rq sid tid :: rest) =
      readRowsGo (acc ++ cur.toList)
        (some { category := c, key := k, title := t, fieldType := ty, required := rq,
                sourceId := sid, targetId := tid, options := [] }) rest := rfl

theorem readRowsGo_options (acc : List PlanField) (f0 : PlanField)
    (opts : List FieldOption) (rows : List PlanRow) :
    readRowsGo acc (some f0)
        (opts.map (fun o => PlanRow.optionRow o.value o.name o.position o.active) ++ rows)
      = readRowsGo acc (some (opts.foldl addOption f0)) rows := by
  induction opts generalizing f0 with
  | nil => rfl
  | cons o os ih =>
      simp only [List.map_cons, List.cons_append, readRowsGo, List.foldl_cons]
      exact ih (addOption f0 o)

theorem foldl_addOption (opts : List FieldOption) (g : PlanField) :
    opts.foldl addOption g = { g with options := g.options ++ opts } := by
  induction opts generalizing g with
  | nil => simp
  | cons o os ih =>
      rw [List.foldl_cons, ih]
      simp [addOption]

theorem readRowsGo_writePlan (plan : List PlanField) (acc : List PlanField)
    (cur : Option PlanField) :
    readRowsGo acc cur (writePlan plan) = Except.ok (acc ++ cur.toList ++ plan) := by
  induction plan generalizing acc cur with
  | nil => cases cur <;> simp [writePlan, readRowsGo]
  | cons f rest ih =>
      have h1 : writePlan (f :: rest) =
          PlanRow.fieldRow f.category f.key f.title f.fieldType f.required
              f.sourceId f.targetId ::
            (f.options.map (fun o => PlanRow.optionRow o.value o.name o.position o.active)
              ++ writePlan rest) := by
        simp [writePlan, writeField]
      rw [h1, readRowsGo_fieldRow, readRowsGo_options, foldl_addOption, ih]
      simp

/-- C8. Round-trip law: for every plan without duplicate
(category, key) pairs — an in-memory plan has no dangling option rows
by construction — reading back the serialized rows reconstructs the
plan exactly: readPlan (writePlan plan) = ok plan. -/
theorem c8_roundtrip (plan : List PlanField)
    (hnodup : dupKeys (plan.map (fun f => (f.category, f.key))) = false) :
    readPlan (writePlan plan) = Except.ok plan := by
  have h := readRowsGo_writePlan plan [] none
  simp only [List.nil_append, Option.toList_none] at h
  rw [readPlan, h]
  simp only [List.nil_append]
  rw [hnodup]
  rfl

/-- C8 witness: a two-field plan (a dropdown with two options and an
option-less text field) with distinct keys round-trips exactly. -/
theorem c8_witness :
    readPlan (writePlan [
      { category := "ticket_field", key := "priority_lvl", title := "Priority",
        fieldType := "dropdown", required := true, sourceId := 5, targetId := some 501,
        options := [
          { value := "low", name := "Low", position := 0, active := true },
          { value := "high", name := "High", position := 1, active := true }] },
      { category := "user_field", key := "region", title := "Region",
        fieldType := "text", required := false, sourceId := 9, targetId := none,
        options := [] }]) =
      Except.ok [
      { category := "ticket_field", key := "priority_lvl", title := "Priority",
        fieldType := "dropdown", required := true, sourceId := 5, targetId := some 501,
        options := [
          { value := "low", name := "Low", position := 0, active := true },
          { value := "high", name := "High", position := 1, active := true }] },
      { category := "user_field", key := "region", title := "Region",
        fieldType := "text", required := false, sourceId := 9, targetId := none,
        options := [] }] := by
  exact c8_roundtrip _ (by decide)

end Zendesk
